import Mathlib

/-!
Verification of the cherry-pick GitHub action core
(`src/github-helper.ts`, `src/index.ts`).

The TypeScript source is shallowly embedded: async functions whose only
effects are issuing git commands and mutating their `inputs` argument are
modelled as pure functions that return the list of issued command lines
together with either the updated `Inputs` value (success) or the thrown
error message (failure).  The result of the single external `git
cherry-pick` process invocation is passed in explicitly as a `GitOutput`
value.
-/

namespace CherryPickAction

/-- JavaScript `String.prototype.includes` on character lists: true iff
`pat` occurs as a contiguous substring of the list. -/
def containsSub (pat : List Char) : List Char → Bool
  | [] => pat.isEmpty
  | c :: rest => pat.isPrefixOf (c :: rest) || containsSub pat rest

/-- String version of `containsSub`: JavaScript `s.includes(pat)`. -/
def strIncludes (s pat : String) : Bool :=
  containsSub pat.data s.data

/-- Marker constant `CHERRYPICK_EMPTY` from `github-helper.ts`. -/
def CHERRYPICK_EMPTY : String :=
  "The previous cherry-pick is now empty, possibly due to conflict resolution."

/-- Marker constant `CHERRYPICK_UNRESOLVED_CONFLICT` from `github-helper.ts`. -/
def CHERRYPICK_UNRESOLVED_CONFLICT : String :=
  "After resolving the conflicts, mark them with"

/-- The `Inputs` interface of `github-helper.ts`.  Optional (`?:`) fields
are `Option`s; TypeScript `string[]` fields are `List String`. -/
structure Inputs where
  token : String
  committer : String
  author : String
  branch : String
  title : Option String
  body : Option String
  labels : List String
  inherit_labels : Option Bool
  assignees : List String
  reviewers : List String
  teamReviewers : List String
  cherryPickBranch : Option String
  force : Option Bool
  targetNextBranches : Option Bool
  unresolvedConflict : Option Bool
  draft : Option Bool
deriving DecidableEq

/-- The `GitOutput` class of `github-helper.ts`: captured stdout, stderr and
the process exit code of one git invocation. -/
structure GitOutput where
  stdout : String
  stderr : String
  exitCode : Nat
deriving DecidableEq

/-- Function `getCherryPickParams(unresolvedConflict, githubSha)` from
`github-helper.ts`: starts from `['cherry-pick','-m','1','--strategy=recursive']`,
appends `'--strategy-option=theirs'` when `unresolvedConflict` is false, and
appends the sha when `githubSha` is truthy (non-null and non-empty). -/
def getCherryPickParams (unresolvedConflict : Bool) (githubSha : Option String) :
    List String :=
  let params : List String := ["cherry-pick", "-m", "1", "--strategy=recursive"]
  let params := if !unresolvedConflict then params ++ ["--strategy-option=theirs"] else params
  match githubSha with
  | some sha => if sha = "" then params else params ++ [sha]
  | none => params

/-- Function `cherryPick(inputs, githubSha)` from `github-helper.ts`.  The function
first runs `git` with `getCherryPickParams` (always with
`ignoreReturnCode = true`), whose outcome is the explicit `result`
argument here.  If the unresolved-conflict strategy is selected and the
stderr contains the unresolved-conflict marker, it issues `git add .` and
`git commit -m 'leave conflicts unresolved'`, pushes the label
`'conflict'` onto `inputs.labels` (mutating the caller's value) and sets
`inputs.draft = true`.  Otherwise a nonzero exit code whose stderr lacks
the empty-cherry-pick marker throws `Unexpected error: <stderr>`.
Returned: the issued command lines in order, and either the state of
`inputs` after the call or the thrown message. -/
def cherryPick (inputs : Inputs) (githubSha : Option String) (result : GitOutput) :
    List (List String) × Except String Inputs :=
  let cherryPickParams := getCherryPickParams (inputs.unresolvedConflict.getD false) githubSha
  if inputs.unresolvedConflict.getD false && strIncludes result.stderr CHERRYPICK_UNRESOLVED_CONFLICT then
    ([cherryPickParams, ["add", "."], ["commit", "-m", "leave conflicts unresolved"]],
      Except.ok { inputs with labels := inputs.labels ++ ["conflict"], draft := some true })
  else if result.exitCode != 0 && !(strIncludes result.stderr CHERRYPICK_EMPTY) then
    ([cherryPickParams], Except.error ("Unexpected error: " ++ result.stderr))
  else
    ([cherryPickParams], Except.ok inputs)

/-- JavaScript `split` with a one-character separator, on character lists:
`splitOnChar c l` cuts `l` at every occurrence of `c`; the empty list
splits to `[[]]`, as `''.split(sep)` yields `['']`. -/
def splitOnChar (c : Char) : List Char → List (List Char)
  | [] => [[]]
  | x :: xs =>
    match splitOnChar c xs with
    | [] => [[]]
    | y :: ys => if x = c then [] :: y :: ys else (x :: y) :: ys

/-- A JavaScript number as produced by `Number(component)` on a version
component: either an actual (natural) number or `NaN`. -/
inductive JsNum where
  | num (n : Nat) : JsNum
  | nan : JsNum
deriving DecidableEq

/-- Conversion `Number(s)` on a version component: the empty string converts to `0`,
a string of decimal digits to its value, anything else in scope to `NaN`.
(Exotic numeric literal forms never occur in `prefix/X.Y.Z` branch names;
the spec flags non-numeric components as undefined behaviour anyway.) -/
def jsNumber (l : List Char) : JsNum :=
  if l = [] then JsNum.num 0
  else if l.all Char.isDigit then
    JsNum.num (l.foldl (fun acc c => acc * 10 + (c.toNat - 48)) 0)
  else JsNum.nan

/-- JavaScript `<` on possibly-missing version components: `none` stands
for an out-of-range index (`undefined`); every comparison involving
`undefined` or `NaN` is false. -/
def jsLtB : Option JsNum → Option JsNum → Bool
  | some (JsNum.num a), some (JsNum.num b) => a < b
  | _, _ => false

/-- The unrolled `for (let i = 0; i < 3; i++)` comparison loop of
`isBranchNewer`: at each index, `version1[i] < version2[i]` returns false,
`version1[i] > version2[i]` returns true, otherwise the next index is
tried; after index 2 the result is false. -/
def isNewerVersions (v1 v2 : List JsNum) : Bool :=
  if jsLtB v1[0]? v2[0]? then false
  else if jsLtB v2[0]? v1[0]? then true
  else if jsLtB v1[1]? v2[1]? then false
  else if jsLtB v2[1]? v1[1]? then true
  else if jsLtB v1[2]? v2[2]? then false
  else if jsLtB v2[2]? v1[2]? then true
  else false

/-- Function `isBranchNewer(currentBranch, branch)` from `github-helper.ts`:
`version1 = branch.split('/')[1].split('.').map(Number)`,
`version2 = currentBranch.split('/')[1].split('.').map(Number)`, then the
three-step comparison loop.  When either name has no `'/'`, indexing at 1
yields `undefined` and the subsequent `.split` throws, which the model
renders as `none` (a rejected promise). -/
def isBranchNewer (currentBranch branch : String) : Option Bool :=
  match (splitOnChar '/' branch.data)[1]?, (splitOnChar '/' currentBranch.data)[1]? with
  | some s1, some s2 =>
    some (isNewerVersions ((splitOnChar '.' s1).map jsNumber)
      ((splitOnChar '.' s2).map jsNumber))
  | _, _ => none

/-- View used in claim hypotheses: a branch name "of the form
`prefix/X.Y.Z` with three numeric dot-separated components" is one whose
segment at index 1 after splitting on `'/'` splits on `'.'` into exactly
three components that `Number` maps to actual numbers. -/
def parsesAsTriple (s : String) : Option (Nat × Nat × Nat) :=
  match (splitOnChar '/' s.data)[1]? with
  | some v =>
    match (splitOnChar '.' v).map jsNumber with
    | [JsNum.num a, JsNum.num b, JsNum.num c] => some (a, b, c)
    | _ => none
  | none => none

/-- The body of the `allBranches.map` callback in
`getNewerBranchesForCherryPick`: an empty (falsy) branch maps to `null`;
otherwise the branch itself when `isBranchNewer` holds, else `null`;
`none` when `isBranchNewer` throws. -/
def mapNewerBranch (currentBranch branch : String) : Option (Option String) :=
  if branch = "" then some none
  else (isBranchNewer currentBranch branch).map
    (fun isNewer => if isNewer then some branch else none)

/-- Sequencing `Promise.all` over the mapped callbacks: the list of
`branch | null` results, or `none` if any callback rejected. -/
def mapNewer (currentBranch : String) : List String → Option (List (Option String))
  | [] => some []
  | b :: rest =>
    match mapNewerBranch currentBranch b, mapNewer currentBranch rest with
    | some x, some xs => some (x :: xs)
    | _, _ => none

/-- Function `getNewerBranchesForCherryPick(branchPattern, currentBranch)` from
`github-helper.ts`, with the catalog returned by
`getAllBranches(branchPattern)` passed in explicitly as `allBranches`:
maps each branch to itself or `null` via `isBranchNewer`, then filters the
`null`s out (`filter(branch !== null)` is `filterMap id`). -/
def getNewerBranchesForCherryPick (allBranches : List String) (currentBranch : String) :
    Option (List String) :=
  (mapNewer currentBranch allBranches).map (fun l => l.filterMap id)

/-- The per-iteration mutable state of the fan-out loop in `index.ts`:
the `labels` and `draft` fields of the shared `inputs` object, which are
the only fields the loop body mutates. -/
structure LoopState where
  labels : List String
  draft : Option Bool
deriving DecidableEq

/-- The `for (const branch of branches)` loop of `run()` in `index.ts`:
each iteration first executes `inputs.labels = [...originalLabels]` and
`inputs.draft = originalDraft`, then runs the pipeline body (create
branch, cherry-pick, push, publish), which may mutate the state (the
conflict outcome appends `'conflict'` and forces `draft = true`).
Returned: the state each iteration's body starts from, in order, and the
final state after the last iteration. -/
def fanOutIterate (originalLabels : List String) (originalDraft : Option Bool) :
    List (LoopState → LoopState) → LoopState → List LoopState × LoopState
  | [], inputs => ([], inputs)
  | body :: rest, _inputs =>
    let fresh : LoopState := { labels := originalLabels, draft := originalDraft }
    let after := body fresh
    let r := fanOutIterate originalLabels originalDraft rest after
    (fresh :: r.1, r.2)

/-- The surrounding code of the loop in `run()`:
`const originalLabels = [...inputs.labels]` and
`const originalDraft = pull_request.draft` are captured once, before the
first iteration, and never reassigned. -/
def runFanOut (inputs : LoopState) (prDraft : Option Bool)
    (bodies : List (LoopState → LoopState)) : List LoopState × LoopState :=
  fanOutIterate inputs.labels prDraft bodies inputs

/-- Result of the label phase of `createPullRequest` (`github-helper.ts`):
the labels passed to `issues.addLabels`, whether that call is made at all,
and the content of `inputs.labels` after the function returns. -/
structure LabelEffect where
  outgoing : List String
  labelCallMade : Bool
  inputsLabelsAfter : List String
deriving DecidableEq

/-- The label phase of `createPullRequest(inputs, prBranch, branch)`:
`const appliedLabels = inputs.labels` binds the same array object, so the
`appliedLabels.push(item.name)` calls under `inherit_labels` also grow
`inputs.labels`; inherited labels equal to `branch` are skipped; the
`addLabels` call happens only when `appliedLabels.length > 0`.
`prLabels` is `pull_request.labels` (`none` when absent, skipping the
inner loop). -/
def applyLabels (inputs : Inputs) (prLabels : Option (List String)) (branch : String) :
    LabelEffect :=
  let appliedLabels := inputs.labels
  let appliedLabels :=
    if inputs.inherit_labels.getD false then
      match prLabels with
      | some pls => appliedLabels ++ pls.filter (fun n => n ≠ branch)
      | none => appliedLabels
    else appliedLabels
  { outgoing := appliedLabels
    labelCallMade := appliedLabels.length > 0
    inputsLabelsAfter := appliedLabels }

/-- Sample `Inputs` value builder for concrete instantiations, with the
fields the engine reads left configurable. -/
def mkInputs (labels : List String) (inherit unresolved : Option Bool) : Inputs :=
  { token := "t", committer := "c", author := "a", branch := "target-branch",
    title := none, body := none, labels := labels, inherit_labels := inherit,
    assignees := [], reviewers := [], teamReviewers := [], cherryPickBranch := none,
    force := none, targetNextBranches := none, unresolvedConflict := unresolved,
    draft := none }

/-- Specification-level "newer-than" on parsed version triples: the
comparison runs component-wise left to right and the first differing
component decides; `firstDiffNewer v w` says `v` is newer than `w`. -/
def firstDiffNewer (v w : Nat × Nat × Nat) : Prop :=
  w.1 < v.1 ∨ (w.1 = v.1 ∧ (w.2.1 < v.2.1 ∨ (w.2.1 = v.2.1 ∧ w.2.2 < v.2.2)))

/-- C1: for every commit ref (a nonempty string; the hypotheses also rule
out a ref spelled like the option itself), the auto-theirs strategy
(`unresolvedConflict = false`) builds a cherry-pick command containing
`--strategy-option=theirs`, the leave-unresolved strategy
(`unresolvedConflict = true`) builds one without it, and the remaining
arguments `['cherry-pick','-m','1','--strategy=recursive']` (plus the ref)
agree between the two. -/
theorem cherry_pick_params_strategy_option (sha : String) (h1 : sha ≠ "")
    (h2 : sha ≠ "--strategy-option=theirs") :
    getCherryPickParams false (some sha) =
      ["cherry-pick", "-m", "1", "--strategy=recursive", "--strategy-option=theirs", sha] ∧
    getCherryPickParams true (some sha) =
      ["cherry-pick", "-m", "1", "--strategy=recursive", sha] ∧
    "--strategy-option=theirs" ∈ getCherryPickParams false (some sha) ∧
    "--strategy-option=theirs" ∉ getCherryPickParams true (some sha) ∧
    (getCherryPickParams false (some sha)).filter
        (fun a => a ≠ "--strategy-option=theirs") =
      getCherryPickParams true (some sha) := by
  refine ⟨by simp [getCherryPickParams, h1], by simp [getCherryPickParams, h1], ?_, ?_, ?_⟩
  · simp [getCherryPickParams, h1]
  · simp [getCherryPickParams, h1]
    exact fun h => absurd h.symm h2
  · simp [getCherryPickParams, h1, List.filter, h2]

/-- Witness for C1 at the concrete ref `abc123`. -/
theorem cherry_pick_params_strategy_option_witness :
    ("abc123" ≠ "") ∧ ("abc123" ≠ "--strategy-option=theirs") ∧
    (getCherryPickParams false (some "abc123") =
      ["cherry-pick", "-m", "1", "--strategy=recursive", "--strategy-option=theirs",
        "abc123"] ∧
    getCherryPickParams true (some "abc123") =
      ["cherry-pick", "-m", "1", "--strategy=recursive", "abc123"] ∧
    "--strategy-option=theirs" ∈ getCherryPickParams false (some "abc123") ∧
    "--strategy-option=theirs" ∉ getCherryPickParams true (some "abc123") ∧
    (getCherryPickParams false (some "abc123")).filter
        (fun a => a ≠ "--strategy-option=theirs") =
      getCherryPickParams true (some "abc123")) :=
  ⟨by decide, by decide,
    cherry_pick_params_strategy_option "abc123" (by decide) (by decide)⟩

/-- C3: under the leave-unresolved strategy, when the process stderr
contains the unresolved-conflict marker, `cherryPick` issues exactly two
follow-up commands after the cherry-pick itself — `add .` then
`commit -m 'leave conflicts unresolved'` — appends the label `conflict`,
sets `draft := true`, and raises no error. -/
theorem cherry_pick_unresolved_conflict_path (inputs : Inputs) (sha : Option String)
    (result : GitOutput) (hu : inputs.unresolvedConflict = some true)
    (hc : strIncludes result.stderr CHERRYPICK_UNRESOLVED_CONFLICT = true) :
    cherryPick inputs sha result =
      ([getCherryPickParams true sha, ["add", "."],
         ["commit", "-m", "leave conflicts unresolved"]],
       Except.ok { inputs with labels := inputs.labels ++ ["conflict"],
                               draft := some true }) := by
  simp [cherryPick, hu, hc]

/-- Witness for C3: the leave-unresolved conflict path at a concrete
input whose stderr is the marker itself. -/
theorem cherry_pick_unresolved_conflict_path_witness :
    (mkInputs ["bug"] none (some true)).unresolvedConflict = some true ∧
    strIncludes "After resolving the conflicts, mark them with"
      CHERRYPICK_UNRESOLVED_CONFLICT = true ∧
    cherryPick (mkInputs ["bug"] none (some true)) (some "abc123")
        ⟨"", "After resolving the conflicts, mark them with", 1⟩ =
      ([getCherryPickParams true (some "abc123"), ["add", "."],
         ["commit", "-m", "leave conflicts unresolved"]],
       Except.ok { mkInputs ["bug"] none (some true) with
                    labels := ["bug", "conflict"], draft := some true }) :=
  ⟨rfl, by decide,
    cherry_pick_unresolved_conflict_path (mkInputs ["bug"] none (some true))
      (some "abc123") ⟨"", "After resolving the conflicts, mark them with", 1⟩
      rfl (by decide)⟩

/-- C4: under the auto-theirs strategy (`unresolvedConflict` falsy),
`cherryPick` raises an error iff the process exits nonzero with stderr
lacking the empty-commit marker, and then the message is exactly
`Unexpected error: ` followed by the raw stderr; in every case the only
command issued is the cherry-pick itself, and any non-raising outcome
returns the inputs unchanged. -/
theorem cherry_pick_auto_theirs_classification (inputs : Inputs) (sha : Option String)
    (result : GitOutput) (hauto : inputs.unresolvedConflict.getD false = false) :
    ((cherryPick inputs sha result).2.isOk = false ↔
      (result.exitCode ≠ 0 ∧ strIncludes result.stderr CHERRYPICK_EMPTY = false)) ∧
    ((cherryPick inputs sha result).2.isOk = false →
      (cherryPick inputs sha result).2 =
        Except.error ("Unexpected error: " ++ result.stderr)) ∧
    (cherryPick inputs sha result).1 = [getCherryPickParams false sha] ∧
    ((cherryPick inputs sha result).2.isOk = true →
      (cherryPick inputs sha result).2 = Except.ok inputs) := by
  by_cases he : result.exitCode = 0 <;>
    by_cases hm : strIncludes result.stderr CHERRYPICK_EMPTY = true <;>
      simp_all [cherryPick, hauto, Except.isOk, Except.toBool]

/-- Witness for C4 at a concrete fatal input: nonzero exit, unrecognized
stderr, auto-theirs strategy. -/
theorem cherry_pick_auto_theirs_classification_witness :
    (mkInputs [] none none).unresolvedConflict.getD false = false ∧
    (((cherryPick (mkInputs [] none none) (some "abc123") ⟨"", "boom", 1⟩).2.isOk = false ↔
      ((1 : Nat) ≠ 0 ∧ strIncludes "boom" CHERRYPICK_EMPTY = false)) ∧
    ((cherryPick (mkInputs [] none none) (some "abc123") ⟨"", "boom", 1⟩).2.isOk = false →
      (cherryPick (mkInputs [] none none) (some "abc123") ⟨"", "boom", 1⟩).2 =
        Except.error ("Unexpected error: " ++ "boom")) ∧
    (cherryPick (mkInputs [] none none) (some "abc123") ⟨"", "boom", 1⟩).1 =
      [getCherryPickParams false (some "abc123")] ∧
    ((cherryPick (mkInputs [] none none) (some "abc123") ⟨"", "boom", 1⟩).2.isOk = true →
      (cherryPick (mkInputs [] none none) (some "abc123") ⟨"", "boom", 1⟩).2 =
        Except.ok (mkInputs [] none none))) :=
  ⟨rfl, cherry_pick_auto_theirs_classification (mkInputs [] none none)
    (some "abc123") ⟨"", "boom", 1⟩ rfl⟩

/-- C2 counterexample: under the leave-unresolved strategy the
classification is not a function of the stderr alone — with stderr
`boom` (no marker) an exit code of `0` is classified as success while an
exit code of `1` raises a fatal error, refuting "for every pair of
results with the same stderr but different exit codes, the
classification is the same". -/
theorem cherry_pick_exit_code_sensitivity :
    (cherryPick (mkInputs [] none (some true)) (some "abc123")
        ⟨"", "boom", 0⟩).2.isOk = true ∧
    (cherryPick (mkInputs [] none (some true)) (some "abc123")
        ⟨"", "boom", 1⟩).2.isOk = false := by
  constructor <;> decide

/-- C2 amended: under the leave-unresolved strategy, whenever the stderr
contains the unresolved-conflict marker or the empty-commit marker the
whole outcome (commands and classification) depends only on the stderr,
not on the exit code or stdout; when the stderr contains neither marker,
the exit code decides: zero exit is classified as success and nonzero as
fatal. -/
theorem cherry_pick_leave_unresolved_classification (inputs : Inputs)
    (sha : Option String) (so1 so2 stderr : String) (e1 e2 : Nat)
    (hu : inputs.unresolvedConflict = some true) :
    ((strIncludes stderr CHERRYPICK_UNRESOLVED_CONFLICT = true ∨
        strIncludes stderr CHERRYPICK_EMPTY = true) →
      cherryPick inputs sha ⟨so1, stderr, e1⟩ = cherryPick inputs sha ⟨so2, stderr, e2⟩) ∧
    (strIncludes stderr CHERRYPICK_UNRESOLVED_CONFLICT = false →
      strIncludes stderr CHERRYPICK_EMPTY = false →
      ((cherryPick inputs sha ⟨so1, stderr, e1⟩).2.isOk = true ↔ e1 = 0)) := by
  constructor
  · rintro (hm | hm) <;> by_cases h2 : strIncludes stderr CHERRYPICK_UNRESOLVED_CONFLICT = true <;>
      simp_all [cherryPick, hu, hm]
  · intro hm1 hm2
    by_cases he : e1 = 0 <;> simp_all [cherryPick, hu, Except.isOk, Except.toBool]

/-- Witness for C2's amended statement: concrete marker-bearing stderr
with exit codes 0 and 137 yields identical outcomes. -/
theorem cherry_pick_leave_unresolved_classification_witness :
    (mkInputs [] none (some true)).unresolvedConflict = some true ∧
    (((strIncludes "After resolving the conflicts, mark them with"
          CHERRYPICK_UNRESOLVED_CONFLICT = true ∨
        strIncludes "After resolving the conflicts, mark them with"
          CHERRYPICK_EMPTY = true) →
      cherryPick (mkInputs [] none (some true)) (some "abc123")
          ⟨"out1", "After resolving the conflicts, mark them with", 0⟩ =
        cherryPick (mkInputs [] none (some true)) (some "abc123")
          ⟨"out2", "After resolving the conflicts, mark them with", 137⟩) ∧
    (strIncludes "After resolving the conflicts, mark them with"
        CHERRYPICK_UNRESOLVED_CONFLICT = false →
      strIncludes "After resolving the conflicts, mark them with"
        CHERRYPICK_EMPTY = false →
      ((cherryPick (mkInputs [] none (some true)) (some "abc123")
          ⟨"out1", "After resolving the conflicts, mark them with", 0⟩).2.isOk = true ↔
        (0 : Nat) = 0))) :=
  ⟨rfl, cherry_pick_leave_unresolved_classification (mkInputs [] none (some true))
    (some "abc123") "out1" "out2" "After resolving the conflicts, mark them with"
    0 137 rfl⟩

/-- C10: when the commit ref is null, `getCherryPickParams` omits the
commit argument entirely — the parameter list is exactly the strategy
arguments — and `cherryPick` still issues the cherry-pick invocation with
those arguments as its first command rather than raising beforehand. -/
theorem cherry_pick_null_sha (inputs : Inputs) (result : GitOutput) :
    getCherryPickParams (inputs.unresolvedConflict.getD false) none =
      (if inputs.unresolvedConflict.getD false then
        ["cherry-pick", "-m", "1", "--strategy=recursive"]
      else
        ["cherry-pick", "-m", "1", "--strategy=recursive", "--strategy-option=theirs"]) ∧
    (cherryPick inputs none result).1.head? =
      some (getCherryPickParams (inputs.unresolvedConflict.getD false) none) := by
  constructor
  · by_cases h : inputs.unresolvedConflict.getD false = true <;>
      simp_all [getCherryPickParams]
  · simp only [cherryPick]
    split_ifs <;> rfl

/-- On two fully numeric three-component versions, the comparison loop
computes exactly the "first differing component decides" order. -/
lemma isNewerVersions_num_iff (x1 x2 x3 y1 y2 y3 : Nat) :
    isNewerVersions [JsNum.num x1, JsNum.num x2, JsNum.num x3]
        [JsNum.num y1, JsNum.num y2, JsNum.num y3] = true ↔
      firstDiffNewer (x1, x2, x3) (y1, y2, y3) := by
  simp only [isNewerVersions, jsLtB, firstDiffNewer, List.getElem?_cons_zero,
    List.getElem?_cons_succ]
  split_ifs <;> simp_all <;> omega

/-- Unpacking of the `parsesAsTriple` view: the slash segment at index 1
exists and its dot components map to the three parsed numbers. -/
lemma parsesAsTriple_spec {s : String} {t : Nat × Nat × Nat}
    (h : parsesAsTriple s = some t) :
    ∃ v, (splitOnChar '/' s.data)[1]? = some v ∧
      (splitOnChar '.' v).map jsNumber =
        [JsNum.num t.1, JsNum.num t.2.1, JsNum.num t.2.2] := by
  unfold parsesAsTriple at h
  split at h
  case h_2 => exact absurd h (by simp)
  case h_1 v hv =>
    split at h
    case h_2 => exact absurd h (by simp)
    case h_1 a b c heq =>
      refine ⟨v, hv, ?_⟩
      rw [heq]
      cases h
      rfl

/-- Reduction of `isBranchNewer` on two names that parse as triples. -/
lemma isBranchNewer_of_parses {a b : String} {va vb : Nat × Nat × Nat}
    (ha : parsesAsTriple a = some va) (hb : parsesAsTriple b = some vb) :
    isBranchNewer a b =
      some (isNewerVersions [JsNum.num vb.1, JsNum.num vb.2.1, JsNum.num vb.2.2]
        [JsNum.num va.1, JsNum.num va.2.1, JsNum.num va.2.2]) := by
  obtain ⟨v1, hv1, hm1⟩ := parsesAsTriple_spec hb
  obtain ⟨v2, hv2, hm2⟩ := parsesAsTriple_spec ha
  unfold isBranchNewer
  rw [hv1, hv2]
  simp only [hm1, hm2]

/-- C5: on branch names of the form `prefix/X.Y.Z` with three numeric
dot-separated components, `isBranchNewer` is non-reflexive (a name is
never newer than itself) and asymmetric (two names are never both newer
than each other), and `isBranchNewer a b` holds exactly when the first
differing version component, read left to right, is larger on `b`'s
side. -/
theorem branch_newer_strict_order (a b : String) (va vb : Nat × Nat × Nat)
    (ha : parsesAsTriple a = some va) (hb : parsesAsTriple b = some vb) :
    isBranchNewer a a = some false ∧
    ¬(isBranchNewer a b = some true ∧ isBranchNewer b a = some true) ∧
    (isBranchNewer a b = some true ↔ firstDiffNewer vb va) := by
  obtain ⟨a1, a2, a3⟩ := va
  obtain ⟨b1, b2, b3⟩ := vb
  refine ⟨?_, ?_, ?_⟩
  · rw [isBranchNewer_of_parses ha ha]
    have := isNewerVersions_num_iff a1 a2 a3 a1 a2 a3
    simp only [firstDiffNewer] at this
    simp only [Option.some_inj]
    rcases hx : isNewerVersions [JsNum.num a1, JsNum.num a2, JsNum.num a3]
        [JsNum.num a1, JsNum.num a2, JsNum.num a3] with _ | _
    · rfl
    · rw [hx] at this
      exfalso
      have h1 := this.mp rfl
      omega
  · rintro ⟨h1, h2⟩
    rw [isBranchNewer_of_parses ha hb, Option.some_inj] at h1
    rw [isBranchNewer_of_parses hb ha, Option.some_inj] at h2
    have p1 := (isNewerVersions_num_iff b1 b2 b3 a1 a2 a3).mp h1
    have p2 := (isNewerVersions_num_iff a1 a2 a3 b1 b2 b3).mp h2
    simp only [firstDiffNewer] at p1 p2
    omega
  · rw [isBranchNewer_of_parses ha hb, Option.some_inj]
    exact isNewerVersions_num_iff b1 b2 b3 a1 a2 a3

/-- Witness for C5 at `release/1.0.0` and `release/1.1.0`. -/
theorem branch_newer_strict_order_witness :
    parsesAsTriple "release/1.0.0" = some (1, 0, 0) ∧
    parsesAsTriple "release/1.1.0" = some (1, 1, 0) ∧
    (isBranchNewer "release/1.0.0" "release/1.0.0" = some false ∧
    ¬(isBranchNewer "release/1.0.0" "release/1.1.0" = some true ∧
        isBranchNewer "release/1.1.0" "release/1.0.0" = some true) ∧
    (isBranchNewer "release/1.0.0" "release/1.1.0" = some true ↔
      firstDiffNewer (1, 1, 0) (1, 0, 0))) :=
  ⟨by decide, by decide,
    branch_newer_strict_order "release/1.0.0" "release/1.1.0" (1, 0, 0) (1, 1, 0)
      (by decide) (by decide)⟩

/-- On a catalog whose entries are nonempty and comparable, the mapping
phase yields branch-or-null in catalog order. -/
lemma mapNewer_sound (ref : String) : ∀ catalog : List String,
    (∀ b ∈ catalog, b ≠ "" ∧ (isBranchNewer ref b).isSome = true) →
    mapNewer ref catalog =
      some (catalog.map
        (fun b => if (isBranchNewer ref b).getD false then some b else none)) := by
  intro catalog
  induction catalog with
  | nil => intro _; rfl
  | cons b rest ih =>
    intro h
    obtain ⟨hne, hsome⟩ := h b (List.mem_cons_self b rest)
    obtain ⟨r, hr⟩ := Option.isSome_iff_exists.mp hsome
    have ih' := ih (fun x hx => h x (List.mem_cons_of_mem b hx))
    simp [mapNewer, mapNewerBranch, hne, hr, ih']

/-- Filtering the nulls out of an if-mapped list is filtering by the
predicate. -/
lemma filterMap_if_eq_filter (p : String → Bool) : ∀ l : List String,
    l.filterMap (fun b => if p b = true then some b else none) = l.filter p := by
  intro l
  induction l with
  | nil => rfl
  | cons b rest ih =>
    rcases hp : p b with _ | _ <;> simp [hp, ih, List.filter_cons]

/-- C6: over a catalog in which every entry is nonempty and comparable to
the reference, `getNewerBranchesForCherryPick` returns exactly the
entries the reference deems newer, in catalog order without
deduplication or re-sorting (it is `List.filter`); in particular, on the
catalog `[release/1.0.0, release/1.1.0, release/1.1.1]` it returns
`[release/1.1.0, release/1.1.1]` for reference `release/1.0.0` and `[]`
for reference `release/1.1.1`. -/
theorem newer_branches_filter (catalog : List String) (ref : String)
    (h : ∀ b ∈ catalog, b ≠ "" ∧ (isBranchNewer ref b).isSome = true) :
    getNewerBranchesForCherryPick catalog ref =
      some (catalog.filter (fun b => (isBranchNewer ref b).getD false)) ∧
    getNewerBranchesForCherryPick
        ["release/1.0.0", "release/1.1.0", "release/1.1.1"] "release/1.0.0" =
      some ["release/1.1.0", "release/1.1.1"] ∧
    getNewerBranchesForCherryPick
        ["release/1.0.0", "release/1.1.0", "release/1.1.1"] "release/1.1.1" =
      some [] := by
  refine ⟨?_, by decide, by decide⟩
  rw [getNewerBranchesForCherryPick, mapNewer_sound ref catalog h]
  simp
  exact filterMap_if_eq_filter (fun b => (isBranchNewer ref b).getD false) catalog

/-- Witness for C6 at the spec's concrete catalog and reference. -/
theorem newer_branches_filter_witness :
    (∀ b ∈ ["release/1.0.0", "release/1.1.0", "release/1.1.1"],
      b ≠ "" ∧ (isBranchNewer "release/1.0.0" b).isSome = true) ∧
    (getNewerBranchesForCherryPick
        ["release/1.0.0", "release/1.1.0", "release/1.1.1"] "release/1.0.0" =
      some (["release/1.0.0", "release/1.1.0", "release/1.1.1"].filter
        (fun b => (isBranchNewer "release/1.0.0" b).getD false)) ∧
    getNewerBranchesForCherryPick
        ["release/1.0.0", "release/1.1.0", "release/1.1.1"] "release/1.0.0" =
      some ["release/1.1.0", "release/1.1.1"] ∧
    getNewerBranchesForCherryPick
        ["release/1.0.0", "release/1.1.0", "release/1.1.1"] "release/1.1.1" =
      some []) :=
  ⟨by decide,
    newer_branches_filter ["release/1.0.0", "release/1.1.0", "release/1.1.1"]
      "release/1.0.0" (by decide)⟩

/-- Every state recorded by `fanOutIterate` is the reset state built from
the captured original labels and draft, whatever the loop bodies do. -/
lemma fanOutIterate_states (originalLabels : List String) (originalDraft : Option Bool) :
    ∀ (bodies : List (LoopState → LoopState)) (start s : LoopState),
      s ∈ (fanOutIterate originalLabels originalDraft bodies start).1 →
      s = { labels := originalLabels, draft := originalDraft } := by
  intro bodies
  induction bodies with
  | nil => intro start s hs; simp [fanOutIterate] at hs
  | cons body rest ih =>
    intro start s hs
    simp only [fanOutIterate, List.mem_cons] at hs
    rcases hs with hs | hs
    · exact hs
    · exact ih _ s hs

/-- C7: in the fan-out run loop, every branch iteration starts from a
fresh copy of the original configured labels and the original draft
flag; mutations made by any iteration body (for example the conflict
outcome appending `conflict` and forcing `draft = true`) are never
visible at the start of a later iteration. -/
theorem fanout_iteration_fresh_state (inputs : LoopState) (prDraft : Option Bool)
    (bodies : List (LoopState → LoopState)) (s : LoopState)
    (hs : s ∈ (runFanOut inputs prDraft bodies).1) :
    s = { labels := inputs.labels, draft := prDraft } :=
  fanOutIterate_states inputs.labels prDraft bodies inputs s hs

/-- Witness for C7: two iterations whose bodies both mutate the state the
way the conflict outcome does; the second iteration still starts fresh. -/
theorem fanout_iteration_fresh_state_witness :
    ((⟨["orig"], some false⟩ : LoopState) ∈
      (runFanOut ⟨["orig"], some false⟩ (some false)
        [fun st => ⟨st.labels ++ ["conflict"], some true⟩,
         fun st => ⟨st.labels ++ ["conflict"], some true⟩]).1) ∧
    (⟨["orig"], some false⟩ : LoopState) =
      ⟨(⟨["orig"], some false⟩ : LoopState).labels, some false⟩ :=
  ⟨by decide,
    fanout_iteration_fresh_state ⟨["orig"], some false⟩ (some false)
      [fun st => ⟨st.labels ++ ["conflict"], some true⟩,
       fun st => ⟨st.labels ++ ["conflict"], some true⟩]
      ⟨["orig"], some false⟩ (by decide)⟩

/-- C8: with label inheritance enabled, the label set sent to the host is
the union (as membership) of the configured labels and the triggering
change's labels minus any inherited label equal to the base branch name,
realized as the configured list followed by the filtered inherited list;
with inheritance disabled (false or absent), only the configured labels
are sent; and an empty outgoing set suppresses the label call. -/
theorem create_pull_request_labels (inputs : Inputs) (prLabels : List String)
    (branch : String) :
    (inputs.inherit_labels = some true →
      (applyLabels inputs (some prLabels) branch).outgoing =
        inputs.labels ++ prLabels.filter (fun n => n ≠ branch) ∧
      ∀ l, l ∈ (applyLabels inputs (some prLabels) branch).outgoing ↔
        (l ∈ inputs.labels ∨ (l ∈ prLabels ∧ l ≠ branch))) ∧
    (inputs.inherit_labels.getD false = false →
      (applyLabels inputs (some prLabels) branch).outgoing = inputs.labels) ∧
    ((applyLabels inputs (some prLabels) branch).outgoing = [] →
      (applyLabels inputs (some prLabels) branch).labelCallMade = false) := by
  refine ⟨fun hin => ⟨by simp [applyLabels, hin], fun l => ?_⟩, fun hin => ?_, fun hemp => ?_⟩
  · simp [applyLabels, hin, List.mem_filter]
  · simp [applyLabels, hin]
  · have hcall : (applyLabels inputs (some prLabels) branch).labelCallMade =
        decide ((applyLabels inputs (some prLabels) branch).outgoing.length > 0) := rfl
    rw [hcall, hemp]
    rfl

/-- Witness for C8 with one configured label, one inheritable label and
one inherited label equal to the base branch. -/
theorem create_pull_request_labels_witness :
    ((mkInputs ["cfg"] (some true) none).inherit_labels = some true →
      (applyLabels (mkInputs ["cfg"] (some true) none)
          (some ["keep", "target-branch"]) "target-branch").outgoing =
        (mkInputs ["cfg"] (some true) none).labels ++
          (["keep", "target-branch"].filter (fun n => n ≠ "target-branch")) ∧
      ∀ l, l ∈ (applyLabels (mkInputs ["cfg"] (some true) none)
          (some ["keep", "target-branch"]) "target-branch").outgoing ↔
        (l ∈ (mkInputs ["cfg"] (some true) none).labels ∨
          (l ∈ ["keep", "target-branch"] ∧ l ≠ "target-branch"))) ∧
    ((mkInputs ["cfg"] (some true) none).inherit_labels.getD false = false →
      (applyLabels (mkInputs ["cfg"] (some true) none)
          (some ["keep", "target-branch"]) "target-branch").outgoing =
        (mkInputs ["cfg"] (some true) none).labels) ∧
    ((applyLabels (mkInputs ["cfg"] (some true) none)
        (some ["keep", "target-branch"]) "target-branch").outgoing = [] →
      (applyLabels (mkInputs ["cfg"] (some true) none)
        (some ["keep", "target-branch"]) "target-branch").labelCallMade = false) :=
  create_pull_request_labels (mkInputs ["cfg"] (some true) none)
    ["keep", "target-branch"] "target-branch"

/-- C9: `const appliedLabels = inputs.labels` binds the caller's array
itself, so with inheritance enabled every inherited label pushed onto the
outgoing set is also appended to the caller's `inputs.labels`, and the
grown list is what the caller observes after `createPullRequest`
returns — the post-state equals the outgoing set, not the original
configured list. -/
theorem create_pull_request_mutates_labels (inputs : Inputs) (prLabels : List String)
    (branch : String) (hin : inputs.inherit_labels = some true) :
    (applyLabels inputs (some prLabels) branch).inputsLabelsAfter =
      inputs.labels ++ prLabels.filter (fun n => n ≠ branch) ∧
    (applyLabels inputs (some prLabels) branch).inputsLabelsAfter =
      (applyLabels inputs (some prLabels) branch).outgoing := by
  constructor
  · simp [applyLabels, hin]
  · rfl

/-- Witness for C9: the caller's label list grows by the inherited label. -/
theorem create_pull_request_mutates_labels_witness :
    (mkInputs ["cfg"] (some true) none).inherit_labels = some true ∧
    ((applyLabels (mkInputs ["cfg"] (some true) none)
        (some ["keep"]) "target-branch").inputsLabelsAfter =
      (mkInputs ["cfg"] (some true) none).labels ++
        (["keep"].filter (fun n => n ≠ "target-branch")) ∧
    (applyLabels (mkInputs ["cfg"] (some true) none)
        (some ["keep"]) "target-branch").inputsLabelsAfter =
      (applyLabels (mkInputs ["cfg"] (some true) none)
        (some ["keep"]) "target-branch").outgoing) :=
  ⟨rfl, create_pull_request_mutates_labels (mkInputs ["cfg"] (some true) none)
    ["keep"] "target-branch" rfl⟩

end CherryPickAction
